import Mathlib

/-!
# Verification of the telegram-mini-app archival pipeline

Shallow embedding of the ingestion/classification/storage pipeline of the
repository `o7031570-alt/telegram-mini-app`:

* `src/bot/telegram_bot.py` — classifier (`handle_channel_post`): media-kind
  resolution and keyword categorisation;
* `src/database/storage.py` — storage engine (`DatabaseManager`):
  `save_message` (upsert), `get_all_posts`, `search_posts`, counting;
* `src/backend/app.py` — query service (`get_posts`, `get_categories`,
  `get_stats`) composed over a storage object.

Machine integers are modelled as `Int`/`Nat`; timestamps as `Int`;
SQL rows as a Lean structure. Both database backends of `storage.py`
(PostgreSQL `ON CONFLICT DO UPDATE` and SQLite `INSERT OR REPLACE`)
are embedded, since they differ observably.
-/

/-- A normalized inbound record: the arguments of
`DatabaseManager.save_message` in `src/database/storage.py`. -/
structure Msg where
  message_id : Int
  content : String
  media_type : String
  category : String
  timestamp : Int
  additional_info : Option String
  deriving DecidableEq, Repr

/-- A row of the `posts` table as created by `_init_db` in
`src/database/storage.py`: columns `id` (surrogate key), `message_id`
(unique), `content`, `media_type`, `category`, `timestamp`,
`additional_info`, `created_at`, `channel_username`. -/
structure Row where
  id : Nat
  message_id : Int
  content : String
  media_type : String
  category : String
  timestamp : Int
  additional_info : Option String
  created_at : Nat
  channel_username : String
  deriving DecidableEq, Repr

/-- The column names of the `posts` table (`_init_db`,
`src/database/storage.py`). Note there is no `updated_at` column. -/
def postsColumns : List String :=
  ["id", "message_id", "content", "media_type", "category", "timestamp",
   "additional_info", "created_at", "channel_username"]

/-- Database state: the `posts` table in rowid (insertion) order, the next
surrogate id (AUTOINCREMENT / SERIAL counter), and a clock supplying
`CURRENT_TIMESTAMP` for the `created_at` default. -/
structure DB where
  rows : List Row
  nextId : Nat
  clock : Nat
  deriving DecidableEq, Repr

def emptyDB : DB := { rows := [], nextId := 1, clock := 0 }

/-- The names defined at top level of the module `database.storage`
(`src/database/storage.py`): the only class defined there is
`DatabaseManager`. -/
def storageModuleDefs : List String := ["DatabaseManager"]

/-- `src/backend/app.py` line 18 runs
`from database.storage import ChannelStorage`; the import succeeds iff the
module defines that name. -/
def STORAGE_AVAILABLE : Bool := storageModuleDefs.contains "ChannelStorage"

/-- The configured channel id (`CHANNEL_ID` default in
`src/bot/telegram_bot.py`). -/
def CHANNEL_ID : Int := -1003791270028

/-! ## Classifier (`handle_channel_post`, `src/bot/telegram_bot.py`) -/

/-- Attachment flags of an inbound Telegram message: which of the
attachment fields (`message.photo`, `.video`, `.document`, `.audio`,
`.voice`, `.animation`, `.sticker`) are present. -/
structure Attachments where
  photo : Bool
  video : Bool
  document : Bool
  audio : Bool
  voice : Bool
  animation : Bool
  sticker : Bool
  deriving DecidableEq, Repr

/-- The message with no attachments at all. -/
def noAttachments : Attachments :=
  ⟨false, false, false, false, false, false, false⟩

/-- Media-kind resolution as written in `handle_channel_post`
(lines 174–188): the `if message.photo / elif message.video /
elif message.document / elif message.audio / else "text"` chain.
Note the code has no branch for voice, animation or sticker. -/
def mediaType (a : Attachments) : String :=
  if a.photo then "photo"
  else if a.video then "video"
  else if a.document then "document"
  else if a.audio then "audio"
  else "text"

/-- Modelled from the spec: the media-kind resolution the spec (§4.1)
and claim C8 describe — priority photo, video, document, audio-or-voice,
animation-mapped-to-video, sticker; absent all attachments ⇒ `text`.
The repository code does not contain the voice/animation/sticker branches;
this definition exists to be compared against `mediaType`. -/
def mediaTypeClaimed (a : Attachments) : String :=
  if a.photo then "photo"
  else if a.video then "video"
  else if a.document then "document"
  else if a.audio || a.voice then "audio"
  else if a.animation then "video"
  else if a.sticker then "sticker"
  else "text"

/-- The attachment priority list actually consulted by the code, as
(name, field) pairs, in source order. -/
def priorityOrder : List (String × (Attachments → Bool)) :=
  [("photo", Attachments.photo), ("video", Attachments.video),
   ("document", Attachments.document), ("audio", Attachments.audio)]

/-- First-present-attachment semantics over a priority list. -/
def firstPresent (a : Attachments) : List (String × (Attachments → Bool)) → String
  | [] => "text"
  | (name, fld) :: rest => if fld a then name else firstPresent a rest

/-- `leadsWith p l` : the character list `p` is an initial segment of `l`. -/
def leadsWith : List Char → List Char → Bool
  | [], _ => true
  | _ :: _, [] => false
  | a :: as, b :: bs => a == b && leadsWith as bs

/-- `occursIn p l` : the character list `p` occurs contiguously in `l`
(SQL `LIKE '%p%'` / Python `p in l`). -/
def occursIn (p : List Char) : List Char → Bool
  | [] => p.isEmpty
  | b :: bs => leadsWith p (b :: bs) || occursIn p bs

/-- Python `content.lower()`, as a character list. (Lean's `Char.toLower`
lowers only ASCII; the non-ASCII keywords in the source are written in
lower case already, so the keyword tests are unaffected.) -/
def lowerList (s : String) : List Char := s.data.map Char.toLower

/-- Python `keyword in content_lower` (the content is lower-cased by the
caller; keywords in the source are already lower-case). -/
def containsKw (contentLower : List Char) (kw : String) : Bool :=
  occursIn kw.data contentLower

/-- Category resolution as written in `handle_channel_post`
(lines 190–205): lower-case the content, then the `if/elif` keyword chain,
falling back to `media` when the media type is not `text`, else `general`. -/
def categorize (content : String) (media_type : String) : String :=
  let cl := lowerList content
  if ["news", "update", "breaking", "новости"].any (containsKw cl) then "news"
  else if ["announce", "important", "notice", "объявление"].any (containsKw cl) then
    "announcement"
  else if ["quote", "цитата", "мысли"].any (containsKw cl) then "quotes"
  else if ["photo", "image", "picture", "фото", "картинка"].any (containsKw cl) then
    "photos"
  else if ["video", "видео"].any (containsKw cl) then "videos"
  else if media_type ≠ "text" then "media"
  else "general"

/-- The ordered (category, keyword-set) rule table of the classifier,
with the keyword sets of the source. -/
def ruleTable : List (String × List String) :=
  [("news", ["news", "update", "breaking", "новости"]),
   ("announcement", ["announce", "important", "notice", "объявление"]),
   ("quotes", ["quote", "цитата", "мысли"]),
   ("photos", ["photo", "image", "picture", "фото", "картинка"]),
   ("videos", ["video", "видео"])]

/-- First rule of the table whose keyword set matches the (lower-cased)
content. -/
def firstRule (cl : List Char) : List (String × List String) → Option String
  | [] => none
  | (cat, kws) :: rest => if kws.any (containsKw cl) then some cat else firstRule cl rest

/-- Modelled from the spec: category resolution as the spec (§4.1) and
claim C7 describe it — lower-case the content, scan the ordered rule
table, first matching rule wins; no match ⇒ `media` when the media kind is
not `text`, else `general`. To be compared against `categorize`. -/
def classifySpec (content : String) (media_type : String) : String :=
  match firstRule (lowerList content) ruleTable with
  | some cat => cat
  | none => if media_type ≠ "text" then "media" else "general"

/-! ## Storage engine (`DatabaseManager`, `src/database/storage.py`) -/

/-- The in-place update performed by the PostgreSQL upsert's
`ON CONFLICT (message_id) DO UPDATE SET content = EXCLUDED.content, ...`
(lines 167–176): overwrites `content`, `media_type`, `category`,
`timestamp`, `additional_info`; all other columns keep their values. -/
def updateRow (m : Msg) (r : Row) : Row :=
  { r with content := m.content, media_type := m.media_type,
           category := m.category, timestamp := m.timestamp,
           additional_info := m.additional_info }

/-- The freshly inserted row: `id` from the autoincrement counter,
`created_at` from the `CURRENT_TIMESTAMP` default, `channel_username`
from the column default `'@for_you_today'`. -/
def newRowOf (db : DB) (m : Msg) : Row :=
  { id := db.nextId, message_id := m.message_id, content := m.content,
    media_type := m.media_type, category := m.category,
    timestamp := m.timestamp, additional_info := m.additional_info,
    created_at := db.clock, channel_username := "@for_you_today" }

/-- The conditional row rewrite of `ON CONFLICT (message_id) DO UPDATE`:
rows whose `message_id` conflicts are updated, all others are untouched. -/
def updFn (m : Msg) (r : Row) : Row :=
  if r.message_id == m.message_id then updateRow m r else r

/-- `save_message` on the PostgreSQL backend (lines 166–176):
`INSERT ... ON CONFLICT (message_id) DO UPDATE SET ...`. If a row with the
message id exists it is updated in place; otherwise a new row is appended. -/
def save_message_pg (db : DB) (m : Msg) : DB :=
  if db.rows.any (fun r => r.message_id == m.message_id) then
    { db with rows := db.rows.map (updFn m), clock := db.clock + 1 }
  else
    { rows := db.rows ++ [newRowOf db m], nextId := db.nextId + 1,
      clock := db.clock + 1 }

/-- `save_message` on the SQLite backend (lines 177–182):
`INSERT OR REPLACE INTO posts (message_id, content, ...) VALUES (...)`.
SQLite deletes any row conflicting on the unique `message_id` and inserts a
fresh row, which therefore receives a new AUTOINCREMENT `id` and a new
`created_at` default. -/
def save_message_sq (db : DB) (m : Msg) : DB :=
  { rows := db.rows.filter (fun r => !(r.message_id == m.message_id))
      ++ [newRowOf db m],
    nextId := db.nextId + 1, clock := db.clock + 1 }

/-- One upsert step, on either backend (`db_type` is chosen from the
environment at startup; `true` = postgres, `false` = sqlite). -/
def save_message (backend : Bool) (db : DB) (m : Msg) : DB :=
  if backend then save_message_pg db m else save_message_sq db m

/-- A sequence of upserts (each tagged with its backend). -/
def applyAll (db : DB) (ops : List (Bool × Msg)) : DB :=
  ops.foldl (fun d p => save_message p.1 d p.2) db

/-- The stored message ids, in table order. -/
def idsOf (db : DB) : List Int := db.rows.map (·.message_id)

/-- The contents of all rows holding a given `message_id`. -/
def contentsFor (db : DB) (mid : Int) : List String :=
  (db.rows.filter (fun r => r.message_id == mid)).map (·.content)

/-! ## Retrieval (`get_all_posts`, `search_posts`) -/

/-- `ORDER BY timestamp DESC`: row `a` may precede row `b` iff
`b.timestamp ≤ a.timestamp`. The SQL specifies no further sort key. -/
def tsGe (a b : Row) : Prop := b.timestamp ≤ a.timestamp

instance : DecidableRel tsGe := fun a b =>
  inferInstanceAs (Decidable (b.timestamp ≤ a.timestamp))

instance : IsTotal Row tsGe := ⟨fun a b => (Int.le_total a.timestamp b.timestamp).symm⟩

instance : IsTrans Row tsGe := ⟨fun _ _ _ h1 h2 => le_trans h2 h1⟩

/-- `ORDER BY timestamp DESC` realised as a stable sort of the table in
rowid order: rows with equal `timestamp` stay in insertion (rowid
ascending) order, which is the scan order of the
`idx_posts_timestamp` index. -/
def sortDesc (l : List Row) : List Row := List.insertionSort tsGe l

/-- The `WHERE channel_username = '@for_you_today'` filter common to all
queries of `DatabaseManager`. -/
def channelOk (r : Row) : Bool := r.channel_username == "@for_you_today"

/-- The optional category filter. Python's `if category:` treats both
`None` and the empty string as "no filter". -/
def catOk (category : Option String) (r : Row) : Bool :=
  match category with
  | none => true
  | some c => if c == "" then true else r.category == c

/-- The rows matching a query's `WHERE` clause, in table order. -/
def matchingRows (db : DB) (category : Option String) : List Row :=
  db.rows.filter (fun r => channelOk r && catOk category r)

/-- Total number of rows matching the filter. -/
def countMatching (db : DB) (category : Option String) : Nat :=
  (matchingRows db category).length

/-- `DatabaseManager.get_all_posts` (lines 193–240): filter by channel and
optional category, `ORDER BY timestamp DESC`, and `LIMIT n` only when the
Python-truthy `if limit:` holds (so `limit=None` and `limit=0` both return
everything). The function takes no offset parameter. -/
def get_all_posts (db : DB) (category : Option String) (limit : Option Nat) :
    List Row :=
  let sorted := sortDesc (matchingRows db category)
  match limit with
  | none => sorted
  | some n => if n == 0 then sorted else sorted.take n

/-- Case-insensitive substring match of the query against the content:
`content ILIKE '%query%'` (postgres) / `content LIKE ?` with `%query%`
(sqlite, case-insensitive for ASCII). -/
def containsCI (content : String) (q : String) : Bool :=
  occursIn (lowerList q) (lowerList content)

/-- `DatabaseManager.search_posts` (lines 242–292): channel filter,
case-insensitive substring match on `content`, optional category filter,
`ORDER BY timestamp DESC`. -/
def search_posts (db : DB) (q : String) (category : Option String) : List Row :=
  sortDesc (db.rows.filter
    (fun r => channelOk r && containsCI r.content q && catOk category r))

/-- `DatabaseManager.get_post_count` (lines 338–360). -/
def get_post_count (db : DB) : Nat := (db.rows.filter channelOk).length

/-! ## Query service (`src/backend/app.py`) -/

/-- The storage capability the backend calls
(`fetch_posts` / `count_posts` / `get_categories`). -/
structure Storage where
  fetch_posts : DB → Option String → Int → Int → List Row
  count_posts : DB → Option String → Nat
  get_categories : DB → List String

/-- The `DummyStorage` stub of `app.py` (lines 51–60): every query answers
empty. -/
def dummyStorage : Storage :=
  { fetch_posts := fun _ _ _ _ => [],
    count_posts := fun _ _ => 0,
    get_categories := fun _ => [] }

/-- The storage object the backend is composed with (`app.py` lines 39–60):
since `STORAGE_AVAILABLE = false` (the module `database.storage` defines no
`ChannelStorage`), `storage` is the `DummyStorage` instance. -/
def storage : Storage := dummyStorage

/-- `app.py` `get_posts` limit clamp (line 71–72):
`if limit <= 0 or limit > 1000: limit = 100`. -/
def clampLimit (limit : Int) : Int :=
  if limit ≤ 0 || 1000 < limit then 100 else limit

/-- `app.py` `get_posts` offset clamp (line 73–74):
`if offset < 0: offset = 0`. -/
def clampOffset (offset : Int) : Int := if offset < 0 then 0 else offset

/-- The modelled fields of the `/api/posts` response: `data`, the echoed
pagination block (`limit`, `offset`, `total`, `has_more`) and
`meta.count`. -/
structure PostsResponse where
  data : List Row
  limit : Int
  offset : Int
  total : Nat
  has_more : Bool
  count : Nat
  deriving DecidableEq, Repr

/-- `app.py` `get_posts` (lines 63–96) over an arbitrary storage object:
clamp the pagination input, fetch, count, and assemble the response. -/
def getPostsWith (s : Storage) (db : DB) (category : Option String)
    (limit offset : Int) : PostsResponse :=
  let l := clampLimit limit
  let o := clampOffset offset
  let posts := s.fetch_posts db category l o
  let total := s.count_posts db category
  { data := posts, limit := l, offset := o, total := total,
    has_more := decide (o + (posts.length : Int) < (total : Int)),
    count := posts.length }

/-- `app.py` `get_categories` (lines 119–132): each category name paired
with its count. -/
def getCategoriesWith (s : Storage) (db : DB) : List (String × Nat) :=
  (s.get_categories db).map (fun c => (c, s.count_posts db (some c)))

/-- One step of the `media_stats` dictionary build in `get_stats`. -/
def bump : List (String × Nat) → String → List (String × Nat)
  | [], k => [(k, 1)]
  | (k', n) :: rest, k =>
      if k' == k then (k', n + 1) :: rest else (k', n) :: bump rest k

/-- The modelled fields of the `/api/stats` response. -/
structure StatsResponse where
  total_posts : Nat
  media_types : List (String × Nat)
  categories : Nat
  deriving DecidableEq, Repr

/-- `app.py` `get_stats` (lines 134–159): total count, a media-type
histogram over `fetch_posts(limit=1000)`, and the number of categories. -/
def getStatsWith (s : Storage) (db : DB) : StatsResponse :=
  { total_posts := s.count_posts db none,
    media_types := ((s.fetch_posts db none 1000 0).map (·.media_type)).foldl bump [],
    categories := (s.get_categories db).length }

/-! ## Ingestion consumer (`handle_channel_post` save path and failure
handling) -/

/-- `save_message` with its failure path (`src/database/storage.py`
lines 160–191): the body is a single SQL statement followed by `commit`;
on an exception (modelled by the `fail` flag) the transaction is rolled
back, the state is unchanged, and `False` is returned. -/
def save_message_result (backend : Bool) (fail : Bool) (db : DB) (m : Msg) :
    DB × Bool :=
  if fail then (db, false) else (save_message backend db m, true)

/-- Outcome of processing one channel post: resulting state, whether the
save succeeded, whether the consumer halted (raised), and whether a
failure was logged. -/
structure BotOutcome where
  db : DB
  saved : Bool
  halted : Bool
  errorLogged : Bool
  deriving DecidableEq, Repr

/-- `handle_channel_post` (`src/bot/telegram_bot.py` lines 155–245),
restricted to the storage-relevant effects: foreign-chat messages are
dropped; otherwise the record is saved; a failed save is logged
(`logger.error`) and the handler returns normally — the whole body is
wrapped in `try/except`, so it never raises to the polling loop. -/
def handle_channel_post (backend fail : Bool) (db : DB) (chatId : Int)
    (m : Msg) : BotOutcome :=
  if chatId ≠ CHANNEL_ID then
    { db := db, saved := false, halted := false, errorLogged := false }
  else
    let res := save_message_result backend fail db m
    { db := res.1, saved := res.2, halted := false, errorLogged := !res.2 }

/-! ## Concrete test fixtures -/

/-- Scenario A message: id 42, content "Breaking news today", no media. -/
def msgA : Msg :=
  { message_id := 42, content := "Breaking news today", media_type := "text",
    category := "news", timestamp := 100, additional_info := none }

/-- Scenario A re-ingestion: same id 42, updated content. -/
def msgB : Msg :=
  { message_id := 42, content := "Breaking news updated", media_type := "text",
    category := "news", timestamp := 101, additional_info := none }

/-- A message carrying only a sticker attachment. -/
def stickerOnly : Attachments := ⟨false, false, false, false, false, false, true⟩

def rowA : Row :=
  { id := 1, message_id := 10, content := "alpha", media_type := "text",
    category := "general", timestamp := 5, additional_info := none,
    created_at := 0, channel_username := "@for_you_today" }

def rowB : Row :=
  { id := 2, message_id := 11, content := "beta", media_type := "text",
    category := "general", timestamp := 5, additional_info := none,
    created_at := 1, channel_username := "@for_you_today" }

/-- Archive with two rows that tie on `timestamp`. -/
def dbTie : DB := { rows := [rowA, rowB], nextId := 3, clock := 2 }

/-- Archive with a single row. -/
def dbOne : DB := { rows := [rowA], nextId := 2, clock := 1 }

/-- The archive after ingesting `msgA` on the PostgreSQL backend. -/
def db1 : DB := save_message_pg emptyDB msgA

/-- The row stored for `msgA`. -/
def rA : Row := newRowOf emptyDB msgA

/-- The retrieval ordering asserted by the spec: `event_time` descending
with ties broken by `internal_id` descending. -/
def tsIdDesc (a b : Row) : Prop :=
  b.timestamp < a.timestamp ∨ (b.timestamp = a.timestamp ∧ b.id < a.id)

instance : DecidableRel tsIdDesc := fun a b =>
  inferInstanceAs
    (Decidable (b.timestamp < a.timestamp
      ∨ (b.timestamp = a.timestamp ∧ b.id < a.id)))

/-! ## Supporting lemmas -/

lemma message_id_updFn (m : Msg) (r : Row) :
    (updFn m r).message_id = r.message_id := by
  unfold updFn; split <;> rfl

lemma pg_filter_contents (m : Msg) (l : List Row)
    (hn : (l.map (·.message_id)).Nodup) :
    ((l.map (updFn m)).filter (fun x => x.message_id == m.message_id)).map (·.content)
      = if l.any (fun r => r.message_id == m.message_id) then [m.content] else [] := by
  induction l with
  | nil => rfl
  | cons a t ih =>
      rw [List.map_cons, List.nodup_cons] at hn
      by_cases ha : (a.message_id == m.message_id) = true
      · have hmid : a.message_id = m.message_id := by simpa using ha
        have htail : (t.map (updFn m)).filter (fun x => x.message_id == m.message_id) = [] := by
          rw [List.filter_eq_nil_iff]
          intro x hx
          obtain ⟨y, hy, hxy⟩ := List.mem_map.mp hx
          subst hxy
          simp only [message_id_updFn, beq_iff_eq]
          intro hc
          exact hn.1 (by rw [hmid, ← hc]; exact List.mem_map_of_mem _ hy)
        have hhead : ((updFn m a).message_id == m.message_id) = true := by
          rw [message_id_updFn]; exact ha
        rw [List.map_cons, List.filter_cons, if_pos hhead, htail]
        simp only [List.any_cons, ha, Bool.true_or, if_true, List.map_cons, List.map_nil]
        congr 1
        unfold updFn
        rw [if_pos ha]
        rfl
      · have hhead : ¬ ((updFn m a).message_id == m.message_id) = true := by
          rw [message_id_updFn]; exact ha
        rw [List.map_cons, List.filter_cons, if_neg hhead, ih hn.2]
        have ha' : (a.message_id == m.message_id) = false := by
          simpa using ha
        simp [List.any_cons, ha']

/-- After an upsert (either backend) on a duplicate-free archive, the rows
holding the upserted message id hold exactly the new content. -/
lemma contentsFor_save (b : Bool) (db : DB) (m : Msg)
    (hn : (idsOf db).Nodup) :
    contentsFor (save_message b db m) m.message_id = [m.content] := by
  cases b
  · show contentsFor (save_message_sq db m) m.message_id = [m.content]
    unfold contentsFor save_message_sq
    rw [List.filter_append, List.filter_filter]
    have h1 : (db.rows.filter
        (fun a => (a.message_id == m.message_id) && !(a.message_id == m.message_id))) = [] := by
      simp
    have h2 : (List.filter (fun x => x.message_id == m.message_id) [newRowOf db m])
        = [newRowOf db m] := by
      simp [newRowOf]
    rw [h1, h2]
    rfl
  · show contentsFor (save_message_pg db m) m.message_id = [m.content]
    unfold save_message_pg
    by_cases h : db.rows.any (fun r => r.message_id == m.message_id) = true
    · rw [if_pos h]
      unfold contentsFor
      have hx := pg_filter_contents m db.rows hn
      rw [h, if_pos rfl] at hx
      exact hx
    · rw [if_neg h]
      unfold contentsFor
      rw [List.filter_append]
      have h1 : db.rows.filter (fun x => x.message_id == m.message_id) = [] := by
        rw [List.filter_eq_nil_iff]
        intro x hx hc
        exact h (List.any_eq_true.mpr ⟨x, hx, hc⟩)
      have h2 : (List.filter (fun x => x.message_id == m.message_id) [newRowOf db m])
          = [newRowOf db m] := by simp [newRowOf]
      rw [h1, h2]
      rfl

/-- Either backend preserves pairwise distinctness of stored message ids. -/
lemma nodup_save (b : Bool) (db : DB) (m : Msg)
    (hn : (idsOf db).Nodup) :
    (idsOf (save_message b db m)).Nodup := by
  cases b
  · show (idsOf (save_message_sq db m)).Nodup
    unfold idsOf save_message_sq
    rw [List.map_append]
    rw [List.nodup_append]
    refine ⟨?_, List.nodup_singleton _, ?_⟩
    · exact hn.sublist ((List.filter_sublist db.rows).map _)
    · intro a ha hb
      obtain ⟨r, hr, hra⟩ := List.mem_map.mp ha
      rw [List.mem_filter] at hr
      have hm : a = m.message_id := by simpa [newRowOf] using hb
      subst hra
      simp only [Bool.not_eq_true'] at hr
      rw [hm] at hr
      simp at hr
  · show (idsOf (save_message_pg db m)).Nodup
    unfold save_message_pg
    by_cases h : db.rows.any (fun r => r.message_id == m.message_id) = true
    · rw [if_pos h]
      unfold idsOf
      show ((db.rows.map (updFn m)).map (·.message_id)).Nodup
      rw [List.map_map]
      have he : db.rows.map ((·.message_id) ∘ updFn m) = db.rows.map (·.message_id) :=
        List.map_congr_left (fun r _ => message_id_updFn m r)
      rw [he]
      exact hn
    · rw [if_neg h]
      unfold idsOf
      show ((db.rows ++ [newRowOf db m]).map (·.message_id)).Nodup
      rw [List.map_append, List.nodup_append]
      refine ⟨hn, List.nodup_singleton _, ?_⟩
      intro a ha hb
      obtain ⟨r, hr, hra⟩ := List.mem_map.mp ha
      have hb' : a = m.message_id := by simpa [newRowOf] using hb
      exact h (List.any_eq_true.mpr ⟨r, hr, by simp [hra, hb']⟩)

/-- Distinctness of stored message ids is an invariant of every upsert
sequence. -/
lemma nodup_applyAll (ops : List (Bool × Msg)) :
    ∀ db : DB, (idsOf db).Nodup → (idsOf (applyAll db ops)).Nodup := by
  induction ops with
  | nil => intro db h; exact h
  | cons p rest ih =>
      intro db h
      exact ih _ (nodup_save p.1 db p.2 h)

lemma occursIn_nil (l : List Char) : occursIn [] l = true := by
  cases l <;> simp [occursIn, leadsWith]

lemma containsCI_empty (c : String) : containsCI c "" = true := by
  have h : lowerList "" = [] := rfl
  simp [containsCI, h, occursIn_nil]

lemma length_sortDesc (l : List Row) : (sortDesc l).length = l.length :=
  List.length_insertionSort tsGe l

/-! ## Claim theorems -/

/-- Claim C1: the upsert is idempotent on the idempotency key. After any
sequence of upserts starting from the empty archive the stored
`message_id` values are pairwise distinct, and upserting the same id
twice (on any combination of backends) leaves exactly one row for that id
holding the latest content. -/
theorem c1_upsert_unique (ops : List (Bool × Msg)) (b1 b2 : Bool)
    (m1 m2 : Msg) (hids : m1.message_id = m2.message_id) :
    (idsOf (applyAll emptyDB ops)).Nodup
    ∧ contentsFor (save_message b2 (save_message b1 (applyAll emptyDB ops) m1) m2)
        m2.message_id = [m2.content] := by
  have h0 : (idsOf (applyAll emptyDB ops)).Nodup :=
    nodup_applyAll ops emptyDB (by simp [idsOf, emptyDB])
  refine ⟨h0, ?_⟩
  have h1 := nodup_save b1 (applyAll emptyDB ops) m1 h0
  exact contentsFor_save b2 _ m2 h1

/-- Witness for C1: ingest id 42 twice (postgres insert, then sqlite
re-ingest) with differing content; exactly one row remains, holding the
updated content. -/
theorem c1_upsert_unique_witness :
    msgA.message_id = msgB.message_id
    ∧ ((idsOf (applyAll emptyDB [])).Nodup
      ∧ contentsFor (save_message false (save_message true (applyAll emptyDB []) msgA) msgB)
          msgB.message_id = [msgB.content]) :=
  ⟨rfl, c1_upsert_unique [] true false msgA msgB rfl⟩

/-- Claim C2 (amended): on the PostgreSQL backend, an upsert of an existing
`message_id` overwrites `content`, `media_type`, `category`, `timestamp`
and also `additional_info`, preserves `id`, `created_at` and
`channel_username`, and leaves every other row unchanged; the schema has
no `updated_at` column. On the SQLite backend the conflicting row is
deleted and a fresh row is inserted, carrying the next autoincrement `id`
and the current clock as `created_at`. -/
theorem c2_update_frame (db : DB) (m : Msg) (r : Row) (hr : r ∈ db.rows)
    (hmid : r.message_id = m.message_id) :
    postsColumns.contains "updated_at" = false
    ∧ updateRow m r ∈ (save_message_pg db m).rows
    ∧ (updateRow m r).id = r.id
    ∧ (updateRow m r).created_at = r.created_at
    ∧ (updateRow m r).channel_username = r.channel_username
    ∧ (updateRow m r).content = m.content
    ∧ (updateRow m r).media_type = m.media_type
    ∧ (updateRow m r).category = m.category
    ∧ (updateRow m r).timestamp = m.timestamp
    ∧ (updateRow m r).additional_info = m.additional_info
    ∧ (save_message_pg db m).rows.filter (fun x => !(x.message_id == m.message_id))
        = db.rows.filter (fun x => !(x.message_id == m.message_id))
    ∧ (save_message_sq db m).rows.filter (fun x => x.message_id == m.message_id)
        = [newRowOf db m]
    ∧ (newRowOf db m).id = db.nextId
    ∧ (newRowOf db m).created_at = db.clock := by
  have hany : db.rows.any (fun x => x.message_id == m.message_id) = true :=
    List.any_eq_true.mpr ⟨r, hr, by simp [hmid]⟩
  refine ⟨rfl, ?_, rfl, rfl, rfl, rfl, rfl, rfl, rfl, rfl, ?_, ?_, rfl, rfl⟩
  · unfold save_message_pg
    rw [if_pos hany]
    show updateRow m r ∈ db.rows.map (updFn m)
    have he : updateRow m r = updFn m r := by
      unfold updFn; rw [if_pos (by simp [hmid])]
    rw [he]
    exact List.mem_map_of_mem _ hr
  · unfold save_message_pg
    rw [if_pos hany]
    show (db.rows.map (updFn m)).filter (fun x => !(x.message_id == m.message_id))
        = db.rows.filter (fun x => !(x.message_id == m.message_id))
    rw [List.filter_map]
    have h1 : db.rows.filter ((fun x => !(x.message_id == m.message_id)) ∘ updFn m)
        = db.rows.filter (fun x => !(x.message_id == m.message_id)) :=
      List.filter_congr (fun x _ => by simp [Function.comp, message_id_updFn])
    rw [h1]
    have h2 : ∀ x ∈ db.rows.filter (fun x => !(x.message_id == m.message_id)),
        updFn m x = x := by
      intro x hx
      rw [List.mem_filter] at hx
      unfold updFn
      rw [if_neg (by simpa using hx.2)]
    exact (List.map_congr_left h2).trans (List.map_id _)
  · unfold save_message_sq
    show ((db.rows.filter (fun x => !(x.message_id == m.message_id))
          ++ [newRowOf db m]).filter (fun x => x.message_id == m.message_id))
        = [newRowOf db m]
    rw [List.filter_append, List.filter_filter]
    simp [newRowOf]

/-- Witness for C2: re-ingesting id 42 into the archive holding it
preserves the surrogate id and `created_at` on the PostgreSQL path. -/
theorem c2_update_frame_witness :
    rA ∈ db1.rows ∧ rA.message_id = msgB.message_id
    ∧ (updateRow msgB rA).id = rA.id
    ∧ (updateRow msgB rA).created_at = rA.created_at := by
  have h := c2_update_frame db1 msgB rA (by decide) (by decide)
  exact ⟨by decide, by decide, h.2.2.1, h.2.2.2.1⟩

/-- Counterexample for C2 as stated: on the SQLite backend
(`INSERT OR REPLACE`), re-ingesting id 42 replaces the stored row, so the
surrogate id changes from 1 to 2 and `created_at` from 0 to 1 — they are
not preserved. -/
theorem c2_frame_counterexample :
    (((save_message false emptyDB msgA).rows.filter
        (fun r => r.message_id == 42)).map (·.id)) = [1]
    ∧ (((save_message false (save_message false emptyDB msgA) msgB).rows.filter
        (fun r => r.message_id == 42)).map (·.id)) = [2]
    ∧ (((save_message false emptyDB msgA).rows.filter
        (fun r => r.message_id == 42)).map (·.created_at)) = [0]
    ∧ (((save_message false (save_message false emptyDB msgA) msgB).rows.filter
        (fun r => r.message_id == 42)).map (·.created_at)) = [1] := by
  decide

/-- Claim C3: the import of `ChannelStorage` from `database.storage` always
fails (the module defines only `DatabaseManager`), so the query service is
composed with the `DummyStorage` stub, and for every input the
posts/categories/stats queries return an empty item list, total 0, and an
empty category set. -/
theorem c3_dummy_storage_composition (db : DB) (category : Option String)
    (limit offset : Int) :
    STORAGE_AVAILABLE = false
    ∧ (getPostsWith storage db category limit offset).data = []
    ∧ (getPostsWith storage db category limit offset).total = 0
    ∧ getCategoriesWith storage db = []
    ∧ getStatsWith storage db = ⟨0, [], 0⟩ :=
  ⟨rfl, rfl, rfl, rfl, rfl⟩

/-- Claim C4 (amended): `get_all_posts` results are non-increasing in
`event_time` for every archive state, category filter and limit. The SQL
specifies no tiebreak, so no `internal_id` order is guaranteed among rows
with equal `event_time`; the scan yields them in insertion order. -/
theorem c4_fetch_ordering (db : DB) (category : Option String)
    (limit : Option Nat) :
    (get_all_posts db category limit).Pairwise tsGe := by
  have hs : (sortDesc (matchingRows db category)).Pairwise tsGe :=
    List.sorted_insertionSort tsGe (matchingRows db category)
  cases limit with
  | none => exact hs
  | some n =>
      show List.Pairwise tsGe (if (n == 0) = true then
        sortDesc (matchingRows db category)
        else (sortDesc (matchingRows db category)).take n)
      by_cases h : (n == 0) = true
      · rw [if_pos h]; exact hs
      · rw [if_neg h]; exact hs.sublist (List.take_sublist n _)

/-- Counterexample for C4 as stated: on an archive with two rows tying on
`timestamp`, the fetch result is not ordered with `internal_id` descending
among the tied rows (they come back in ascending id order). -/
theorem c4_ordering_counterexample :
    ¬ (get_all_posts dbTie none none).Pairwise tsIdDesc := by
  decide

/-- Claim C5 (amended): `get_posts` never rejects pagination input: the
clamped limit always lands in 1..1000 and the clamped offset is
nonnegative; `get_posts(limit=0, offset=-5)` behaves as
`get_posts(limit=100, offset=0)`; and `get_posts(limit=5000)` behaves as
`get_posts(limit=100)` — the silent replacement for an out-of-range limit
is the default 100, not 1000. -/
theorem c5_pagination_clamp (s : Storage) (db : DB) (category : Option String)
    (limit offset : Int) :
    getPostsWith s db category 0 (-5) = getPostsWith s db category 100 0
    ∧ getPostsWith s db category 5000 offset = getPostsWith s db category 100 offset
    ∧ 1 ≤ (getPostsWith s db category limit offset).limit
    ∧ (getPostsWith s db category limit offset).limit ≤ 1000
    ∧ 0 ≤ (getPostsWith s db category limit offset).offset := by
  refine ⟨rfl, rfl, ?_, ?_, ?_⟩
  · show 1 ≤ clampLimit limit
    unfold clampLimit; split_ifs with h <;> [omega; (simp at h; omega)]
  · show clampLimit limit ≤ 1000
    unfold clampLimit; split_ifs with h <;> [omega; (simp at h; omega)]
  · show 0 ≤ clampOffset offset
    unfold clampOffset; split_ifs with h <;> omega

/-- Counterexample for C5 as stated: `get_posts(limit=5000)` does not
behave as `get_posts(limit=1000)` — the responses differ (the clamp
replaces 5000 with the default 100, and the response echoes the clamped
limit). -/
theorem c5_clamp_counterexample :
    getPostsWith storage emptyDB none 5000 0
      ≠ getPostsWith storage emptyDB none 1000 0 := by
  decide

/-- Claim C6 (amended): as composed in the code the list-posts query is
backed by `DummyStorage`, so it returns 0 items for every archive state,
limit and offset — not `min limit (max 0 (total - offset))`. The storage
engine's own fetch, `get_all_posts`, takes no offset parameter and returns
`min limit total` matching rows for any nonzero limit. -/
theorem c6_returned_count (db : DB) (category : Option String) (l o : Int)
    (n : Nat) :
    (getPostsWith storage db category l o).count = 0
    ∧ (get_all_posts db category (some n)).length
        = if n = 0 then countMatching db category
          else min n (countMatching db category) := by
  refine ⟨rfl, ?_⟩
  unfold get_all_posts countMatching
  by_cases h : n = 0
  · simp [h, length_sortDesc]
  · have hb : (n == 0) = false := by simpa using h
    simp [hb, h, length_sortDesc, List.length_take]

/-- Counterexample for C6 as stated: an archive with 2 matching rows,
`limit = 1` (within 1..1000) and `offset = 0`: the query returns 0 items,
not `min 1 (max 0 (2 - 0)) = 1`. -/
theorem c6_count_counterexample :
    countMatching dbTie none = 2
    ∧ (getPostsWith storage dbTie none 1 0).count = 0
    ∧ (getPostsWith storage dbTie none 1 0).count
        ≠ min 1 (max 0 (countMatching dbTie none - 0)) := by
  decide

/-- Claim C7: the classifier lower-cases the content and applies the
ordered rule list news, announcement, quotes, photos, videos, assigning
the category of the first rule whose keyword set matches; with no match it
assigns `media` when the media kind is not `text`, else `general`. The
code agrees with the rule-table semantics on every input, and content
"Breaking news today" with no attachments is classified news / text. -/
theorem c7_classifier (content media_type : String) :
    categorize content media_type = classifySpec content media_type
    ∧ mediaType noAttachments = "text"
    ∧ categorize "Breaking news today" (mediaType noAttachments) = "news" := by
  refine ⟨?_, rfl, by decide⟩
  unfold categorize classifySpec
  simp only [ruleTable, firstRule]
  split_ifs <;> rfl

/-- Claim C8 (amended): media-kind resolution checks the attachment fields
in the fixed priority order photo, video, document, audio, assigning the
first present; the voice, animation and sticker fields are never
inspected, so messages carrying only those fall through to `text`; with no
attachment the result is `text`; exactly one kind is assigned. -/
theorem c8_media_kind (a : Attachments) (v an st : Bool) :
    mediaType a = firstPresent a priorityOrder
    ∧ mediaType { a with voice := v, animation := an, sticker := st } = mediaType a
    ∧ mediaType noAttachments = "text" :=
  ⟨rfl, rfl, rfl⟩

/-- Counterexample for C8 as stated: a sticker-only message is resolved to
`text` by the code, not to `sticker` as the claimed priority order (photo,
video, document, audio-or-voice, animation, sticker) would give. -/
theorem c8_media_kind_counterexample :
    mediaType stickerOnly = "text" ∧ mediaTypeClaimed stickerOnly = "sticker"
    ∧ mediaType stickerOnly ≠ mediaTypeClaimed stickerOnly := by
  decide

/-- Claim C9 (amended): search with an empty query string is not an error,
but it returns every post matching the channel and category filters (the
SQL pattern is a double percent wildcard, which matches all content) — the
same result as an unlimited fetch — rather than the empty result set. -/
theorem c9_empty_search (db : DB) (category : Option String) :
    search_posts db "" category = get_all_posts db category none := by
  unfold search_posts get_all_posts matchingRows
  congr 1
  apply List.filter_congr
  intro r _
  simp [containsCI_empty]

/-- Counterexample for C9 as stated: on an archive with one post, search
with the empty query returns that post, not the empty result set. -/
theorem c9_empty_search_counterexample :
    search_posts dbOne "" none = [rowA] ∧ search_posts dbOne "" none ≠ [] := by
  decide

/-- Claim C10: an upsert either fully commits (the state is exactly the
upserted state and success is reported) or fully aborts (the state is
exactly unchanged and failure is reported); the ingestion caller never
halts, and on a failed save it leaves the archive unchanged and logs the
error. -/
theorem c10_upsert_atomicity (backend fail : Bool) (db : DB) (m : Msg)
    (chatId : Int) :
    (((save_message_result backend fail db m).2 = true
        ∧ (save_message_result backend fail db m).1 = save_message backend db m)
      ∨ ((save_message_result backend fail db m).2 = false
        ∧ (save_message_result backend fail db m).1 = db))
    ∧ (handle_channel_post backend fail db chatId m).halted = false
    ∧ (handle_channel_post backend true db CHANNEL_ID m).db = db
    ∧ (handle_channel_post backend true db CHANNEL_ID m).saved = false
    ∧ (handle_channel_post backend true db CHANNEL_ID m).errorLogged = true := by
  refine ⟨?_, ?_, ?_, ?_, ?_⟩
  · cases fail
    · exact Or.inl ⟨rfl, rfl⟩
    · exact Or.inr ⟨rfl, rfl⟩
  · unfold handle_channel_post
    split <;> rfl
  all_goals simp [handle_channel_post, save_message_result]
